import Mathlib

/-!
Verification of the Snap checkpoint/restore system against its
natural-language specification.

The development shallowly embeds the Python sources:

* `SnapApi/src/classes/imagetag.py` — the image-reference codec
  (`generate_tag` / `parse_tag`);
* `SnapApi/src/routes/pod.py` — digest extraction and the multi-registry
  existence oracle;
* `SnapApi/src/flows/checkpoint_and_push_combined.py` — the
  checkpoint-and-push pipeline;
* `SnapHook/src/webhook.py` — the mutating admission webhook;
* `SnapApi/src/classes/operator_watcher.py` and `SnapWatch/operator.py` —
  the operator event handlers.

Python strings are modelled as `List Char` (a Python `str` is exactly a
sequence of Unicode code points).  External processes (curl, skopeo,
buildah, the kubelet) are modelled as oracle parameters supplying the
outcome of each call; an outcome is either a captured result or an
exception.
-/

deriving instance DecidableEq for Except

namespace Snap

/-- A Python string: a sequence of Unicode code points. -/
abbrev Str := List Char

/-- One character of Python `str.lower()`.  For the ASCII range (the only
range exercised by this code base) Python lower-cases exactly the letters
`A`–`Z` by adding 32 to the code point; every other character is kept. -/
def pyLowerChar (c : Char) : Char :=
  if 'A' ≤ c ∧ c ≤ 'Z' then Char.ofNat (c.toNat + 32) else c

/-- Python `s.lower()`. -/
def pyLower (s : Str) : Str := s.map pyLowerChar

/-- Python `s.strip()`: remove leading and trailing whitespace. -/
def pyStrip (s : Str) : Str :=
  ((s.dropWhile Char.isWhitespace).reverse.dropWhile Char.isWhitespace).reverse

/-- Python `s.split(sep)` for a one-character separator: split on every
occurrence, keeping empty pieces; splitting the empty string yields one
empty piece. -/
def splitOnChar (sep : Char) : Str → List Str
  | [] => [[]]
  | c :: rest =>
    if c = sep then [] :: splitOnChar sep rest
    else
      match splitOnChar sep rest with
      | [] => [[c]]
      | p :: ps => (c :: p) :: ps

/-- Python `sep.join(parts)` for a one-character separator. -/
def joinChar (sep : Char) : List Str → Str
  | [] => []
  | [p] => p
  | p :: ps => p ++ sep :: joinChar sep ps

/-- Split a string at the *last* occurrence of `sep`, as Python's
`s.rfind(sep)` followed by slicing does; `none` when `sep` does not occur. -/
def splitAtLastChar (sep : Char) : Str → Option (Str × Str)
  | [] => none
  | c :: rest =>
    match splitAtLastChar sep rest with
    | some (a, b) => some (c :: a, b)
    | none => if c = sep then some ([], rest) else none

/-- Everything after the first occurrence of `sep`
(Python `s.split(sep, 1)[-1]` when `sep` occurs in `s`). -/
def afterFirstChar (sep : Char) : Str → Option Str
  | [] => none
  | c :: rest => if c = sep then some rest else afterFirstChar sep rest

/-- Leftmost index of the substring `pat` in `s` (Python `s.find(pat)`),
`none` standing for Python's `-1`; only used with non-empty patterns. -/
def findSub (pat : Str) : Str → Option Nat
  | [] => if pat = [] then some 0 else none
  | c :: rest =>
    if pat.isPrefixOf (c :: rest) then some 0
    else (findSub pat rest).map (· + 1)

/-- Substring containment, Python `pat in s`. -/
def containsSub (pat s : Str) : Bool := (findSub pat s).isSome

/-! ## Image reference codec — `SnapApi/src/classes/imagetag.py` -/

/-- `ImageTagComponents`: the seven components of an image tag.  In Python
this is a pydantic model whose validator rejects empty fields and strips
surrounding whitespace; `mkImageTagComponents` below models that
validator, so a value of this structure built by it has non-empty,
stripped fields. -/
structure ImageTagComponents where
  registry : Str
  repo : Str
  cluster : Str
  «namespace» : Str
  app : Str
  origImageShortDigest : Str
  PodTemplateHash : Str
deriving DecidableEq

/-- The pydantic field validator: reject an empty string, return the
stripped value. -/
def validateComponent (v : Str) : Except String Str :=
  if v = [] then .error ("All components must be non-empty strings")
  else .ok (pyStrip v)

/-- Construction of `ImageTagComponents`, running the validator on every
field. -/
def mkImageTagComponents (registry repo cluster ns app digest hash : Str) :
    Except String ImageTagComponents := do
  let registry ← validateComponent registry
  let repo ← validateComponent repo
  let cluster ← validateComponent cluster
  let ns ← validateComponent ns
  let app ← validateComponent app
  let digest ← validateComponent digest
  let hash ← validateComponent hash
  return ⟨registry, repo, cluster, ns, app, digest, hash⟩

/-- The `repo_path` local of `ImageTagParser.generate_tag`:
`f"{cluster}-{namespace}-{app}".lower()`. -/
def codecRepoPath (c : ImageTagComponents) : Str :=
  pyLower (c.cluster ++ '-' :: c.«namespace» ++ '-' :: c.app)

/-- The `tag_part` local of `ImageTagParser.generate_tag`:
`f"{origImageShortDigest}-{PodTemplateHash}"`. -/
def codecTagPart (c : ImageTagComponents) : Str :=
  c.origImageShortDigest ++ '-' :: c.PodTemplateHash

/-- `ImageTagParser.generate_tag`: build
`{registry}/{repo}/{repo_path}:{tag_part}`. -/
def generate_tag (c : ImageTagComponents) : Str :=
  c.registry ++ '/' :: c.repo ++ '/' :: codecRepoPath c
    ++ ':' :: codecTagPart c

/-- `ImageTagParser.parse_tag`: split at the last `:`, split the image
part on `/`, split the third segment on `-` (app last, namespace
second-to-last, cluster the rest), split the tag part on `-` (hash last,
digest the rest), then rebuild the components through the validator. -/
def parse_tag (image_tag : Str) : Except String ImageTagComponents :=
  if image_tag = [] then
    .error ("Image tag must be a non-empty string")
  else
    match splitAtLastChar ':' image_tag with
    | none => .error ("Invalid image tag format: missing colon separator")
    | some (image_part, tag_part) =>
      if image_part = [] ∨ tag_part = [] then
        .error ("Invalid image tag format: empty image or tag part")
      else
        let image_components := splitOnChar '/' image_part
        if image_components.length < 3 then
          .error ("Invalid image part format: expected at least 3 components")
        else
          let cna := image_components.getLastD []
          let repo := image_components.dropLast.getLastD []
          let registry :=
            if image_components.length = 3 then image_components.headD []
            else joinChar '/' image_components.dropLast.dropLast
          let cnaParts := splitOnChar '-' cna
          if cnaParts.length < 3 then
            .error ("Invalid cluster-namespace-app format: expected at least 3 components")
          else
            let app := cnaParts.getLastD []
            let ns := cnaParts.dropLast.getLastD []
            let cluster := joinChar '-' cnaParts.dropLast.dropLast
            let tagParts := splitOnChar '-' tag_part
            if tagParts.length < 2 then
              .error ("Invalid tag part format: expected at least 2 components")
            else
              let hash := tagParts.getLastD []
              let digest := joinChar '-' tagParts.dropLast
              mkImageTagComponents registry repo cluster ns app digest hash

/-- The seven fields of an `ImageTagComponents`, in declaration order. -/
def componentFields (c : ImageTagComponents) : List Str :=
  [c.registry, c.repo, c.cluster, c.«namespace», c.app,
    c.origImageShortDigest, c.PodTemplateHash]

/-- Convenience function `generate_image_tag` of `imagetag.py`: build the
components through the validator, then generate. -/
def generate_image_tag (registry repo cluster ns app digest hash : Str) :
    Except String Str :=
  (mkImageTagComponents registry repo cluster ns app digest hash).map generate_tag

/-! ## Pod objects

The subset of a Kubernetes pod object that the embedded code reads.
Python reads these through `dict.get`, so absent keys are `Option`s; an
`Option Str` whose value is `some []` models an empty-string value, which
Python treats as falsy exactly like an absent key. -/

/-- Truthiness of an optional string, as Python evaluates
`metadata.get(key)` in a boolean context. -/
def truthyOpt (s : Option Str) : Bool := (s.getD []).length ≠ 0

structure PodCondition where
  type : Option Str
  status : Option Str
deriving DecidableEq

/-- A container status's `state` dict; the handlers only test
`"running" in state`. -/
structure ContainerState where
  hasRunning : Bool
deriving DecidableEq

structure ContainerStatus where
  name : Option Str
  imageID : Option Str
  state : ContainerState
  started : Bool
deriving DecidableEq

structure Container where
  name : Option Str
  image : Option Str
deriving DecidableEq

structure PodMetadata where
  name : Option Str
  «namespace» : Option Str
  uid : Option Str
  labels : List (Str × Str)
  deletionTimestamp : Option Str
deriving DecidableEq

structure PodStatus where
  phase : Option Str
  conditions : List PodCondition
  containerStatuses : List ContainerStatus
deriving DecidableEq

structure PodSpec where
  nodeName : Option Str
  containers : List Container
deriving DecidableEq

structure Pod where
  metadata : PodMetadata
  spec : PodSpec
  status : PodStatus
deriving DecidableEq

/-- `labels.get(key)`: look a key up in a label dictionary. -/
def lookupLabel (labels : List (Str × Str)) (key : Str) : Option Str :=
  (labels.find? (fun p => p.1 == key)).map Prod.snd

/-! ## Digest resolution — helpers of `SnapApi/src/routes/pod.py` -/

/-- `_pick_digest_from_image_id`: normalize a CRI `imageID` to a digest
string — everything after the first `@` when present, otherwise the
suffix starting at `sha256:` when present, otherwise `None`. -/
def pick_digest_from_image_id (image_id : Str) : Option Str :=
  if image_id = [] then none
  else if (afterFirstChar '@' image_id).isSome then afterFirstChar '@' image_id
  else
    match findSub ("sha256:".data) image_id with
    | some i => some (image_id.drop i)
    | none => none

/-- `_strip_sha_repo`: drop a leading `sha256:` and truncate to 12
characters when `short`. -/
def strip_sha_repo (digest : Str) (short : Bool) : Str :=
  if digest = [] then "unknown".data
  else
    let d := if ("sha256:".data).isPrefixOf digest then digest.drop 7 else digest
    if short then d.take 12 else d

/-- The container status `_extract_digest_from_pod_obj` chooses: the one
matching `prefer` when that name is set and found, otherwise the first
listed status; `none` when the pod reports no container statuses. -/
def chosenStatus (pod : Pod) (prefer : Option Str) : Option ContainerStatus :=
  match pod.status.containerStatuses with
  | [] => none
  | st0 :: _ =>
    some <|
      match prefer with
      | some p =>
        if p ≠ [] then
          ((pod.status.containerStatuses.find? (fun st => st.name == some p)).getD st0)
        else st0
      | none => st0

/-- The `spec.containers` fallback inside `_extract_digest_from_pod_obj`:
a digest pinned after `@` in the preferred (else first) container's
image reference. -/
def specPinnedDigest (pod : Pod) (prefer : Option Str) : Option Str :=
  match pod.spec.containers with
  | [] => none
  | c0 :: _ =>
    let target :=
      match prefer with
      | some p =>
        if p ≠ [] then
          (pod.spec.containers.find? (fun c : Container => c.name == some p)).getD c0
        else c0
      | none => c0
    let image_ref := target.image.getD []
    if (afterFirstChar '@' image_ref).isSome then afterFirstChar '@' image_ref
    else none

/-- `_extract_digest_from_pod_obj`: digest from the chosen container
status when truthy, else the spec-pinned fallback. -/
def extract_digest_from_pod_obj (pod : Pod) (prefer : Option Str) : Option Str :=
  let fromStatus :=
    match chosenStatus pod prefer with
    | none => none
    | some st => pick_digest_from_image_id (st.imageID.getD [])
  if (fromStatus.getD []) ≠ [] then fromStatus
  else specPinnedDigest pod prefer

/-- `prefer_container_name` in `_extract_digest`:
`containers[0].get("name") if containers else None`. -/
def firstContainerName (pod : Pod) : Option Str :=
  match pod.spec.containers with
  | [] => none
  | c :: _ => c.name

/-- `image_ref` in `_extract_digest`:
`containers[0].get("image", "") if containers else ""`. -/
def firstContainerImage (pod : Pod) : Str :=
  match pod.spec.containers with
  | [] => []
  | c :: _ => c.image.getD []

/-- `_extract_digest`: prefer the first container's name, read the digest
from the live pod object, else fall back to a remote `skopeo inspect` of
the first container's image — `sk` is that external resolver, already
returning a short digest or `"unknown"` — else return `"unknown"`. -/
def extract_digest (pod : Pod) (sk : Str → Str) : Str :=
  let prefer := firstContainerName pod
  let in_pod := extract_digest_from_pod_obj pod prefer
  if (in_pod.getD []) ≠ [] then strip_sha_repo (in_pod.getD []) true
  else
    let image_ref := firstContainerImage pod
    if image_ref ≠ [] then sk image_ref
    else "unknown".data

/-! ## Registry existence oracle — `SnapApi/src/routes/pod.py` -/

/-- The `image_path` that `_check_image_exists_multi_registry` constructs:
`f"{cluster}-{namespace}-{app}"` — note: no lower-casing. -/
def multiRegistryImagePath (cluster ns app : Str) : Str :=
  cluster ++ '-' :: ns ++ '-' :: app

/-- The `tag` that `_check_image_exists_multi_registry` constructs:
`f"{digest}-{pod_hash}"`. -/
def multiRegistryTag (digest pod_hash : Str) : Str :=
  digest ++ '-' :: pod_hash

/-- The two manifest URLs `_check_image_exists_docker_registry` probes. -/
def dockerRegistryManifestUrls (registry_host repo image_path tag : Str) : List Str :=
  [ "https://".data ++ registry_host ++ "/v2/".data ++ repo ++ "/".data ++
      image_path ++ "/manifests/".data ++ tag,
    "http://".data ++ registry_host ++ "/v2/".data ++ repo ++ "/".data ++
      image_path ++ "/manifests/".data ++ tag ]

/-- Outcome of one `curl` subprocess: a captured stdout, or a raised
exception (non-zero exit, transport error, timeout). -/
inductive RunOutcome where
  | ok (stdout : Str)
  | exc
deriving DecidableEq

/-- `http_code = result.stdout.strip() if result.stdout else ""`. -/
def httpCodeOf (stdout : Str) : Str :=
  if stdout = [] then [] else pyStrip stdout

/-- The URL loop shared by the per-flavor existence checkers
(`_check_image_exists_docker_registry` and friends): each probe that
returns HTTP code `200` answers `True`; an exception is swallowed and the
next URL is tried; exhausting the URLs answers `False`.  `outcomes` lists
the result of the probe for each URL in order. -/
def checkRegistryLoop : List RunOutcome → Bool
  | [] => false
  | o :: rest =>
    match o with
    | .exc => checkRegistryLoop rest
    | .ok s => if httpCodeOf s = "200".data then true else checkRegistryLoop rest

/-- The success test of the URL loop: a captured stdout whose stripped
HTTP code is `200`. -/
def isHttp200 : RunOutcome → Bool
  | .ok s => httpCodeOf s = "200".data
  | .exc => false

/-- `_check_image_exists_docker_registry`, as a function of the probe
outcomes for its two URLs. -/
def check_image_exists_docker_registry (outcomes : List RunOutcome) : Bool :=
  checkRegistryLoop outcomes

/-- The `try`/`except` boundary of `_check_image_exists_multi_registry`:
the dispatched flavor check either returns a boolean or raises; a raise
is caught and answered with `False`. -/
def check_image_exists_multi_registry (dispatch : Except Unit Bool) : Bool :=
  match dispatch with
  | .ok b => b
  | .error _ => false

/-! ## Admission webhook — `SnapHook/src/webhook.py` and
`receive_pod_webhook` of `SnapApi/src/routes/pod.py` -/

structure JsonPatch where
  op : Str
  path : Str
  value : Str
deriving DecidableEq

/-- The per-container image patch `mutate_pods` emits:
`{"op": "replace", "path": f"/spec/containers/{i}/image", "value": tag}`. -/
def imageReplacePatch (i : Nat) (tag : Str) : JsonPatch :=
  ⟨"replace".data,
    "/spec/containers/".data ++ (Nat.repr i).data ++ "/image".data, tag⟩

/-- The mutation-label patch `mutate_pods` emits. -/
def mutatedLabelPatch : JsonPatch :=
  ⟨"replace".data, "/metadata/labels/snap.weaversoft.io~1mutated".data,
    "true".data⟩

/-- What `receive_pod_webhook` answers: `{"exist": "True", "generated_image_tag": t}`
or `{"exist": "False"}`. -/
structure WebhookResult where
  exist : Bool
  generated_image_tag : Option Str
deriving DecidableEq

/-- The tag `receive_pod_webhook` generates: namespace from metadata
(default `"unknown"`), app and pod-template-hash from the labels (default
`"unknown"`), digest via `_extract_digest`, assembled by
`generate_image_tag` from the env-configured registry and repo;
`"generation-failed"` when tag generation raises. -/
def receive_pod_webhook_tag (cluster_name : Str) (pod : Pod)
    (snap_registry snap_repo : Str) (sk : Str → Str) : Str :=
  let ns := pod.metadata.«namespace».getD ("unknown".data)
  let app := (lookupLabel pod.metadata.labels ("app".data)).getD ("unknown".data)
  let hash := (lookupLabel pod.metadata.labels ("pod-template-hash".data)).getD
    ("unknown".data)
  let digest := extract_digest pod sk
  match generate_image_tag snap_registry snap_repo cluster_name ns app digest hash with
  | .ok t => t
  | .error _ => "generation-failed".data

/-- The argument tuple `receive_pod_webhook` passes to
`_check_image_exists_multi_registry`. -/
def webhookQuery (cluster_name : Str) (pod : Pod)
    (snap_registry snap_repo : Str) (sk : Str → Str) :
    Str × Str × Str × Str × Str × Str × Str :=
  let ns := pod.metadata.«namespace».getD ("unknown".data)
  let app := (lookupLabel pod.metadata.labels ("app".data)).getD ("unknown".data)
  let hash := (lookupLabel pod.metadata.labels ("pod-template-hash".data)).getD
    ("unknown".data)
  let digest := extract_digest pod sk
  (snap_registry, snap_repo, cluster_name, ns, app, digest, hash)

/-- `receive_pod_webhook`: generate the candidate tag, ask the existence
oracle (`oracle` models `_check_image_exists_multi_registry`'s verdict),
and answer `exist` plus — only when it exists — the generated tag. -/
def receive_pod_webhook (cluster_name : Str) (pod : Pod)
    (snap_registry snap_repo : Str) (sk : Str → Str)
    (oracle : Str × Str × Str × Str × Str × Str × Str → Bool) : WebhookResult :=
  let t := receive_pod_webhook_tag cluster_name pod snap_registry snap_repo sk
  if oracle (webhookQuery cluster_name pod snap_registry snap_repo sk) then
    ⟨true, some t⟩
  else ⟨false, none⟩

/-- What `mutate_pods` learns from its call to `{snapapi}/pod/webhook`:
either an exception, or a response with a status code and the decoded
JSON fields. -/
inductive SnapApiCall where
  | exc
  | resp (status : Nat) (exist : Option Str) (generated_image_tag : Option Str)
deriving DecidableEq

/-- The admission response `mutate_pods` builds: always `allowed`, with a
base64 JSON patch only when there are patches. -/
structure AdmissionResponse where
  allowed : Bool
  patch : Option (List JsonPatch)
deriving DecidableEq

/-- `mutate_pods` of `SnapHook/src/webhook.py`: on a 200 response whose
body says `exist == "True"`, patch every container's image to the
returned tag and add the mutated label; otherwise (non-200, `exist`
otherwise, exception, or a missing/empty tag) emit no patch; always
`allowed`. -/
def mutate_pods (containers : List Container) (call : SnapApiCall) :
    AdmissionResponse :=
  let sp : Bool × Option Str :=
    match call with
    | .exc => (false, none)
    | .resp status exist tag =>
      if status = 200 then
        if exist = some ("True".data) then (true, tag) else (false, none)
      else (false, none)
  let should_patch_image := sp.1
  let generated_image_tag := sp.2
  let patches :=
    (if should_patch_image ∧ truthyOpt generated_image_tag then
      (List.range containers.length).map
        (fun i => imageReplacePatch i (generated_image_tag.getD []))
    else []) ++
    (if should_patch_image ∧ truthyOpt generated_image_tag then
      [mutatedLabelPatch]
    else [])
  { allowed := true
    patch := if patches ≠ [] then some patches else none }

/-! ## Operator event handlers — `SnapApi/src/classes/operator_watcher.py`
(`SnapWatcherOperator.handle_pod_event`) and `SnapWatch/operator.py`
(`on_pod_event`) -/

/-- `evt_type = (event or {}).get("type") or "UNKNOWN"`. -/
def resolvedEventType (evtType : Option Str) : Str :=
  if truthyOpt evtType then evtType.getD [] else "UNKNOWN".data

/-- The readiness guard both handlers run, line for line: not a DELETED
event and no (truthy) deletion timestamp; phase `Running`; some condition
`Ready`/`True`; some container status with a `running` state and
`started`. -/
def podEventGuard (evtType : Option Str) (body : Pod) : Bool :=
  let evt := resolvedEventType evtType
  if evt = "DELETED".data ∨ truthyOpt body.metadata.deletionTimestamp then false
  else if ¬(body.status.phase = some ("Running".data)) then false
  else if ¬(body.status.conditions.any (fun c =>
      c.type == some ("Ready".data) && c.status == some ("True".data))) then false
  else if ¬(body.status.containerStatuses.any (fun cs =>
      cs.state.hasRunning && cs.started)) then false
  else true

/-- `SnapWatcherOperator.handle_pod_event` of
`SnapApi/src/classes/operator_watcher.py`, up to the point where it either
returns without acting or invokes the checkpoint-and-push pipeline on the
pod body.  It keeps no memory of pods already handled: there is no dedup
set in this handler.  `ready` models `self.is_ready()`. -/
def handle_pod_event (ready : Bool) (evtType : Option Str) (body : Pod) :
    Option Pod :=
  if ¬ready then none
  else if podEventGuard evtType body then some body
  else none

/-- The pipeline invocations a sequence of events produces through
`handle_pod_event` (the kopf event loop feeds events one at a time). -/
def snapApiPipelineInvocations (ready : Bool)
    (events : List (Option Str × Pod)) : List Pod :=
  events.filterMap (fun e => handle_pod_event ready e.1 e.2)

/-- One step of `SnapWatch/operator.py`'s `on_pod_event`: the same guard,
then the `_ALREADY_CHECKPOINTED` dedup — a UID already in the set returns
without acting, otherwise the UID is added and the post-dedup body runs
(`true` in the second component). -/
def snapwatch_step (seen : List (Option Str)) (evtType : Option Str)
    (body : Pod) : List (Option Str) × Bool :=
  if ¬podEventGuard evtType body then (seen, false)
  else
    let uid := body.metadata.uid
    if uid ∈ seen then (seen, false)
    else (uid :: seen, true)

/-- Folding `snapwatch_step` over an event sequence, counting how many
events reach the post-dedup body. -/
def snapwatchTriggerCount (seen : List (Option Str)) :
    List (Option Str × Pod) → Nat
  | [] => 0
  | e :: rest =>
    let s := snapwatch_step seen e.1 e.2
    (if s.2 then 1 else 0) + snapwatchTriggerCount s.1 rest

/-- Concrete two-container pod used as a counterexample input: the first
container `a` has no container status of its own; the only listed status
belongs to the second container `b` and carries `imageID` `bImageId`. -/
def twoContainerPod (bImageId : Str) : Pod where
  metadata :=
    { name := some ("pod-1".data)
      «namespace» := some ("ns1".data)
      uid := some ("uid-1".data)
      labels := [("app".data, "myapp".data),
        ("pod-template-hash".data, "5f9c8d".data)]
      deletionTimestamp := none }
  spec :=
    { nodeName := some ("node-1".data)
      containers := [⟨some ("a".data), some ("imgA".data)⟩,
        ⟨some ("b".data), some ("imgB".data)⟩] }
  status :=
    { phase := some ("Running".data)
      conditions := [⟨some ("Ready".data), some ("True".data)⟩]
      containerStatuses := [⟨some ("b".data), some bImageId, ⟨true⟩, true⟩] }

/-! ## Checkpoint-and-push pipeline —
`SnapApi/src/flows/checkpoint_and_push_combined.py`
(`checkpoint_and_push_combined_from_pod_spec`)

External calls are supplied by a `PipelineEnv` oracle: each field is the
outcome of the corresponding subprocess/HTTP call, `Except Str` carrying
the exception text of a raised error.  The function returns the ordered
list of external actions it performed together with the result
dictionary; every Python `raise` inside the flow is caught by its
enclosing handler, so the embedding is a total function — nothing escapes
the pipeline boundary.  `send_progress` events are best-effort
notifications and are not modelled. -/

/-- `os.path.basename`: the part after the last `/`. -/
def basename (p : Str) : Str :=
  match splitAtLastChar '/' p with
  | some (_, b) => b
  | none => p

/-- `_short_digest_from_full`: text after the last `:`, truncated to 12
characters; empty digest for an empty input. -/
def short_digest_from_full (full_digest : Str) : Str :=
  if full_digest = [] then []
  else ((splitOnChar ':' full_digest).getLastD []).take 12

/-- Python's `repr` of a list of strings, as f-strings render the
`missing` list: `['pod_name', 'namespace']`. -/
def joinStr (sep : Str) : List Str → Str
  | [] => []
  | [x] => x
  | x :: xs => x ++ sep ++ joinStr sep xs

def pyReprStrList (xs : List Str) : Str :=
  '[' :: joinStr (", ".data) (xs.map (fun x => '\'' :: x ++ ['\''])) ++ [']']

/-- The kubelet checkpoint response as the flow interprets it: stdout
that is not JSON, or a JSON object with an optional `items` list (`json.loads`
plus `checkpoint_data.get("items")`). -/
inductive KubeletResponse where
  | notJson (stdout stderr : Str)
  | json (stdout : Str) (items : Option (List Str))
deriving DecidableEq

/-- Outcomes of the pipeline's external calls; an `Except.error` carries
the raised exception's text. -/
structure PipelineEnv where
  svc : Except Str Str
  snapApiUrlFallback : Str
  token : Except Str Str
  checkpoint : Except Str KubeletResponse
  upload : Except Str (Int × Str)
  skopeo : Str → Except Str Str
  buildahFrom : Except Str Str
  buildahAdd : Except Str Unit
  buildahConfig : Except Str Unit
  buildahCommit : Except Str Unit
  buildahPush : Except Str Unit
  snap_cluster : Str
  snap_registry : Str
  snap_repo : Str
  snap_registry_user : Str
  snap_registry_pass : Str
  snap_kube_api_address : Str

/-- The external actions the pipeline performs, in order. -/
inductive PipelineAction where
  | svcLookup
  | readToken
  | checkpointCall («namespace» pod container : Str)
  | uploadCall (pod filename : Str)
  | skopeoInspect (ref : Str)
  | buildahLogin
  | buildahFrom
  | buildahAdd (pod container : Str)
  | buildahAnnotate (container : Str)
  | buildahCommit (tag : Str)
  | buildahRm
  | buildahPush (tag : Str)
deriving DecidableEq

/-- The `PodCheckpointResponse` pydantic model, as filled in by the flow. -/
structure CheckpointResponse where
  success : Bool
  message : Str
  checkpoint_path : Str
  pod_name : Str
  container_ids : Str
deriving DecidableEq

structure PushResult where
  message : Str
  image_tag : Str
deriving DecidableEq

/-- The result dictionary of the flow: failure returns carry `None` for
the checkpoint/push results and no image tag. -/
structure PipelineResult where
  success : Bool
  message : Str
  checkpoint_result : Option CheckpointResponse
  push_result : Option PushResult
  image_tag : Option Str
  pod_name : Option Str
  container_name : Option Str
deriving DecidableEq

/-- A failure dictionary `{"success": False, "message": msg,
"checkpoint_result": None, "push_result": None}`. -/
def pipelineFailure (msg : Str) : PipelineResult :=
  ⟨false, msg, none, none, none, none, none⟩

/-- Failure via the outer `except` boundary:
`f"Combined operation failed: {e}"`. -/
def combinedFailure (e : Str) : PipelineResult :=
  pipelineFailure ("Combined operation failed: ".data ++ e)

/-- The pod facts `checkpoint_and_push_combined_from_pod_spec` extracts
before any external call. -/
structure PodFacts where
  podN : Str
  nsN : Str
  nodeN : Str
  cname : Str
  appN : Str
  hashN : Str
  orig0 : Str
  container_image : Str
deriving DecidableEq

/-- The fact-extraction and validation prefix of
`checkpoint_and_push_combined_from_pod_spec`: first the `containers`
check, then the digest pinned after `@` in `containers[0].image`, then
the missing-required-fields check. -/
def requiredFields (body : Pod) (container : Container) :
    List (Str × Option Str) :=
  [("pod_name".data, body.metadata.name),
    ("namespace".data, body.metadata.«namespace»),
    ("node_name".data, body.spec.nodeName),
    ("container_name".data, container.name),
    ("app".data, lookupLabel body.metadata.labels ("app".data)),
    ("pod_template_hash".data,
      lookupLabel body.metadata.labels ("pod-template-hash".data))]

/-- `missing = [k for k, v in required_fields.items() if not v]`. -/
def missingFields (body : Pod) (container : Container) : List Str :=
  ((requiredFields body container).filter
    (fun kv => ¬truthyOpt kv.2)).map Prod.fst

def extractPodFacts (body : Pod) : Except Str PodFacts :=
  match body.spec.containers with
  | [] => .error ("No containers found in pod spec".data)
  | container :: _ =>
    let container_image := container.image.getD []
    let orig0 : Str :=
      if (afterFirstChar '@' container_image).isSome then
        (((splitOnChar ':' ((afterFirstChar '@' container_image).getD [])).getLastD
          []).take 12)
      else []
    if missingFields body container ≠ [] then
      .error (("Missing required fields from pod spec: ".data) ++
        pyReprStrList (missingFields body container))
    else
      .ok ⟨body.metadata.name.getD [], body.metadata.«namespace».getD [],
        body.spec.nodeName.getD [], container.name.getD [],
        (lookupLabel body.metadata.labels ("app".data)).getD [],
        (lookupLabel body.metadata.labels ("pod-template-hash".data)).getD [],
        orig0, container_image⟩

/-- The buildah build-and-push tail of phase 2: optional registry login,
scratch container, add, annotate with the source container name, commit
under the generated tag — cleanup (`buildah rm`) always attempted, also
on failure — then push. -/
def buildahPhase (facts : PodFacts) (checkpoint_response : CheckpointResponse)
    (image_tag : Str) (env : PipelineEnv) :
    List PipelineAction × PipelineResult :=
  let loginActs :=
    if env.snap_registry_user ≠ [] ∧ env.snap_registry_pass ≠ []
    then [PipelineAction.buildahLogin]
    else []
  let acts4 := loginActs ++ [PipelineAction.buildahFrom]
  match env.buildahFrom with
  | .error e => (acts4, combinedFailure e)
  | .ok _ =>
    let acts5 := acts4 ++ [PipelineAction.buildahAdd facts.podN facts.cname]
    match env.buildahAdd with
    | .error e => (acts5 ++ [PipelineAction.buildahRm], combinedFailure e)
    | .ok _ =>
      let acts6 := acts5 ++ [PipelineAction.buildahAnnotate facts.cname]
      match env.buildahConfig with
      | .error e => (acts6 ++ [PipelineAction.buildahRm], combinedFailure e)
      | .ok _ =>
        let acts7 := acts6 ++ [PipelineAction.buildahCommit image_tag]
        match env.buildahCommit with
        | .error e => (acts7 ++ [PipelineAction.buildahRm], combinedFailure e)
        | .ok _ =>
          let acts8 := (acts7 ++ [PipelineAction.buildahRm]) ++
            [PipelineAction.buildahPush image_tag]
          match env.buildahPush with
          | .error e => (acts8, combinedFailure e)
          | .ok _ =>
            (acts8,
              ⟨true,
                ("Combined checkpoint and push operation " ++
                  "completed successfully").data,
                some checkpoint_response,
                some ⟨("Checkpoint image successfully committed " ++
                  "and pushed").data, image_tag⟩,
                some image_tag, some facts.podN, some facts.cname⟩)

/-- Phase 2 of the flow (after a successful upload): skopeo digest
resolution when no digest was pinned, the generated image tag with the
lower-cased cluster, then the buildah build-and-push tail. -/
def pipelineBuildPush (facts : PodFacts) (checkpoint_file_path : Str)
    (env : PipelineEnv) : List PipelineAction × PipelineResult :=
  let checkpoint_response : CheckpointResponse :=
    ⟨true, "All containers checkpointed successfully for pod: ".data ++
      facts.podN, checkpoint_file_path, facts.podN, facts.cname⟩
  let digestStep : List PipelineAction × Except Str Str :=
    if facts.orig0 = [] then
      let image_ref :=
        if containsSub ("://".data) facts.container_image then
          facts.container_image
        else "docker://".data ++ facts.container_image
      ([PipelineAction.skopeoInspect image_ref],
        (env.skopeo image_ref).map short_digest_from_full)
    else ([], .ok facts.orig0)
  match digestStep.2 with
  | .error e => (digestStep.1, combinedFailure e)
  | .ok orig =>
    let cluster_norm := pyLower env.snap_cluster
    let image_tag := env.snap_registry ++ '/' :: env.snap_repo ++
      '/' :: cluster_norm ++ '-' :: facts.nsN ++ '-' :: facts.appN ++
      ':' :: orig ++ '-' :: facts.hashN
    let b := buildahPhase facts checkpoint_response image_tag env
    (digestStep.1 ++ b.1, b.2)


/-- Phase 1 of the flow: service lookup (its `try`/`except` always yields
a URL), token resolution, the kubelet checkpoint call for
`containers[0]`, JSON/`items` interpretation, and the node upload with
its early-return error handling; then phase 2. -/
def pipelineFromToken (facts : PodFacts) (env : PipelineEnv) :
    List PipelineAction × PipelineResult :=
  let acts1 := [PipelineAction.svcLookup, PipelineAction.readToken]
  match env.token with
  | .error e => (acts1, combinedFailure e)
  | .ok _ =>
    let acts2 := acts1 ++
      [PipelineAction.checkpointCall facts.nsN facts.podN facts.cname]
    match env.checkpoint with
    | .error e => (acts2, combinedFailure e)
    | .ok (.notJson stdout stderr) =>
      (acts2, combinedFailure (("Checkpoint API did not return JSON.".data ++
        "\nSTDOUT:\n".data) ++ stdout ++ "\nSTDERR:\n".data ++ stderr))
    | .ok (.json stdout items) =>
      match items.getD [] with
      | [] =>
        (acts2, combinedFailure
          ("No checkpoint file path found in API response.\n".data ++ stdout))
      | checkpoint_file_path :: _ =>
        let checkpoint_filename := basename checkpoint_file_path
        let acts3 := acts2 ++
          [PipelineAction.uploadCall facts.podN checkpoint_filename]
        match env.upload with
        | .error e => (acts3, pipelineFailure ("Upload error: ".data ++ e))
        | .ok (rc, stderrU) =>
          if rc ≠ 0 then
            (acts3, pipelineFailure (("Upload failed: ".data ++
              stderrU.take 100) ++ "...".data))
          else
            let b := pipelineBuildPush facts checkpoint_file_path env
            (acts3 ++ b.1, b.2)

/-- `checkpoint_and_push_combined_from_pod_spec`: extract pod facts,
resolve a token, call the kubelet checkpoint endpoint for
`containers[0]`, upload the archive, resolve the digest, build the image
under the generated tag and push it.  Returns the performed actions and
the result dictionary; every raise inside the flow surfaces as a
returned failure dictionary. -/
def checkpoint_and_push_combined_from_pod_spec (body : Pod)
    (env : PipelineEnv) : List PipelineAction × PipelineResult :=
  match extractPodFacts body with
  | .error e => ([], combinedFailure e)
  | .ok facts => pipelineFromToken facts env


/-- Build/push-phase actions (buildah subprocesses). -/
def isBuildOrPushAction : PipelineAction → Bool
  | .buildahLogin => true
  | .buildahFrom => true
  | .buildahAdd _ _ => true
  | .buildahAnnotate _ => true
  | .buildahCommit _ => true
  | .buildahRm => true
  | .buildahPush _ => true
  | _ => false

/-- A kubelet response that is not JSON, or whose `items` is missing or
empty. -/
def kubeletBadItems : Except Str KubeletResponse → Bool
  | .ok (.notJson _ _) => true
  | .ok (.json _ none) => true
  | .ok (.json _ (some [])) => true
  | _ => false

/-- The container names of the kubelet checkpoint calls in an action
trace. -/
def checkpointCallNames (acts : List PipelineAction) : List Str :=
  acts.filterMap (fun a =>
    match a with
    | .checkpointCall _ _ c => some c
    | _ => none)

/-- The container names annotated into built images in an action trace. -/
def annotateNames (acts : List PipelineAction) : List Str :=
  acts.filterMap (fun a =>
    match a with
    | .buildahAnnotate c => some c
    | _ => none)

/-! ## Theorems: string utilities -/

theorem splitOnChar_ne_nil (sep : Char) (s : Str) : splitOnChar sep s ≠ [] := by
  induction s with
  | nil => simp [splitOnChar]
  | cons c rest ih =>
    simp only [splitOnChar]
    by_cases h : c = sep
    · simp [h]
    · rw [if_neg h]
      cases hs : splitOnChar sep rest with
      | nil => simp
      | cons p ps => simp

theorem splitOnChar_of_not_mem (sep : Char) (s : Str) (h : sep ∉ s) :
    splitOnChar sep s = [s] := by
  induction s with
  | nil => rfl
  | cons c rest ih =>
    have hc : c ≠ sep := fun hc => h (hc ▸ List.mem_cons_self c rest)
    have hrest : sep ∉ rest := fun hm => h (List.mem_cons_of_mem c hm)
    simp only [splitOnChar, if_neg hc, ih hrest]

theorem splitOnChar_append (sep : Char) (x y : Str) :
    splitOnChar sep (x ++ sep :: y) = splitOnChar sep x ++ splitOnChar sep y := by
  induction x with
  | nil => simp [splitOnChar]
  | cons c x' ih =>
    by_cases h : c = sep
    · simp only [List.cons_append, splitOnChar, if_pos h, List.append_eq, ih,
        List.cons_append]
    · cases hs : splitOnChar sep x' with
      | nil => exact absurd hs (splitOnChar_ne_nil sep x')
      | cons p ps =>
        simp only [List.cons_append, splitOnChar, if_neg h, List.append_eq, ih, hs,
          List.cons_append]

theorem joinChar_splitOnChar (sep : Char) (s : Str) :
    joinChar sep (splitOnChar sep s) = s := by
  induction s with
  | nil => rfl
  | cons c rest ih =>
    by_cases h : c = sep
    · cases hs : splitOnChar sep rest with
      | nil => exact absurd hs (splitOnChar_ne_nil sep rest)
      | cons q qs =>
        rw [hs] at ih
        simp only [splitOnChar, if_pos h, hs, joinChar, ih, h, List.nil_append]
    · cases hs : splitOnChar sep rest with
      | nil => exact absurd hs (splitOnChar_ne_nil sep rest)
      | cons p ps =>
        rw [hs] at ih
        cases ps with
        | nil =>
          simp only [joinChar] at ih
          simp only [splitOnChar, if_neg h, hs, joinChar, ih]
        | cons p2 ps2 =>
          simp only [joinChar] at ih
          simp only [splitOnChar, if_neg h, hs, joinChar, List.cons_append, ih]

theorem splitAtLastChar_of_not_mem (sep : Char) (s : Str) (h : sep ∉ s) :
    splitAtLastChar sep s = none := by
  induction s with
  | nil => rfl
  | cons c rest ih =>
    have hc : c ≠ sep := fun hc => h (hc ▸ List.mem_cons_self c rest)
    have hrest : sep ∉ rest := fun hm => h (List.mem_cons_of_mem c hm)
    simp only [splitAtLastChar, ih hrest, if_neg hc]

theorem splitAtLastChar_append (sep : Char) (x y : Str) (hy : sep ∉ y) :
    splitAtLastChar sep (x ++ sep :: y) = some (x, y) := by
  induction x with
  | nil => simp [splitAtLastChar, splitAtLastChar_of_not_mem sep y hy]
  | cons c x' ih => simp [splitAtLastChar, ih]

theorem toNat_ofNat_of_valid (n : Nat) (h : n.isValidChar) :
    (Char.ofNat n).toNat = n := by
  unfold Char.ofNat
  rw [dif_pos h]
  rfl

/-- `pyLowerChar` maps a character to a character outside the upper-case
range only if it already was that character: lower-casing can only produce
letters `a`–`z` afresh. -/
theorem pyLowerChar_eq_iff (x c : Char) (hup : ¬('A' ≤ c ∧ c ≤ 'Z'))
    (hlo : ¬('a' ≤ c ∧ c ≤ 'z')) : pyLowerChar x = c ↔ x = c := by
  unfold pyLowerChar
  split
  case isTrue h =>
    obtain ⟨h1, h2⟩ := h
    have hx1 : 65 ≤ x.toNat := h1
    have hx2 : x.toNat ≤ 90 := h2
    have hv : (x.toNat + 32).isValidChar := Or.inl (by omega)
    constructor
    · intro heq
      exfalso
      have ht : (Char.ofNat (x.toNat + 32)).toNat = x.toNat + 32 :=
        toNat_ofNat_of_valid _ hv
      rw [heq] at ht
      exact hlo ⟨show 97 ≤ c.toNat by omega, show c.toNat ≤ 122 by omega⟩
    · intro heq
      exfalso
      exact hup ⟨heq ▸ h1, heq ▸ h2⟩
  case isFalse h => exact Iff.rfl

theorem mem_pyLower_iff (x : Char) (s : Str) (hup : ¬('A' ≤ x ∧ x ≤ 'Z'))
    (hlo : ¬('a' ≤ x ∧ x ≤ 'z')) : x ∈ pyLower s ↔ x ∈ s := by
  unfold pyLower
  rw [List.mem_map]
  constructor
  · rintro ⟨y, hy, hxy⟩
    rwa [(pyLowerChar_eq_iff y x hup hlo).mp hxy] at hy
  · intro hx
    exact ⟨x, hx, (pyLowerChar_eq_iff x x hup hlo).mpr rfl⟩

theorem pyLowerChar_dash : pyLowerChar '-' = '-' := by decide

/-! ## Codec round-trip (claim C1) -/

/-- C1 (amended): codec round-trip.  For every `ImageTagComponents` value
`c` — i.e. with non-empty, whitespace-stripped fields as the pydantic
validator guarantees — whose fields contain no `/` or `:`, whose cluster,
namespace and app contain no `-` at all and are already lower-case, and
whose pod-template hash contains no `-`, parsing the generated tag
returns `c` itself. -/
theorem claim_C1_roundtrip (c : ImageTagComponents)
    (hne : ∀ f ∈ componentFields c, f ≠ [])
    (hsl : ∀ f ∈ componentFields c, '/' ∉ f)
    (hco : ∀ f ∈ componentFields c, ':' ∉ f)
    (hst : ∀ f ∈ componentFields c, pyStrip f = f)
    (hda : '-' ∉ c.cluster ∧ '-' ∉ c.«namespace» ∧ '-' ∉ c.app ∧
      '-' ∉ c.PodTemplateHash)
    (hlo : pyLower c.cluster = c.cluster ∧ pyLower c.«namespace» = c.«namespace» ∧
      pyLower c.app = c.app) :
    parse_tag (generate_tag c) = .ok c := by
  obtain ⟨R, P, Cl, N, A, D, H⟩ := c
  simp only [componentFields, List.mem_cons, List.not_mem_nil, or_false,
    forall_eq_or_imp, forall_eq] at hne hsl hco hst
  obtain ⟨hneR, hneP, hneCl, hneN, hneA, hneD, hneH⟩ := hne
  obtain ⟨hslR, hslP, hslCl, hslN, hslA, hslD, hslH⟩ := hsl
  obtain ⟨hcoR, hcoP, hcoCl, hcoN, hcoA, hcoD, hcoH⟩ := hco
  obtain ⟨hstR, hstP, hstCl, hstN, hstA, hstD, hstH⟩ := hst
  obtain ⟨hdaCl, hdaN, hdaA, hdaH⟩ := hda
  obtain ⟨hloCl, hloN, hloA⟩ := hlo
  have hL : codecRepoPath ⟨R, P, Cl, N, A, D, H⟩ = Cl ++ '-' :: N ++ '-' :: A := by
    simp only [codecRepoPath, pyLower, List.map_append, List.map_cons,
      pyLowerChar_dash]
    simp only [pyLower] at hloCl hloN hloA
    rw [hloCl, hloN, hloA]
  have hgen : generate_tag ⟨R, P, Cl, N, A, D, H⟩ =
      (R ++ '/' :: P ++ '/' :: (Cl ++ '-' :: N ++ '-' :: A)) ++
        ':' :: (D ++ '-' :: H) := by
    simp only [generate_tag, codecTagPart, hL, List.append_assoc, List.cons_append]
  have hyT : ':' ∉ D ++ '-' :: H := by
    simp only [List.mem_append, List.mem_cons]
    rintro (h | h | h)
    · exact hcoD h
    · exact absurd h (by decide)
    · exact hcoH h
  have hsplit : splitAtLastChar ':'
      ((R ++ '/' :: P ++ '/' :: (Cl ++ '-' :: N ++ '-' :: A)) ++
        ':' :: (D ++ '-' :: H)) =
      some (R ++ '/' :: P ++ '/' :: (Cl ++ '-' :: N ++ '-' :: A),
        D ++ '-' :: H) :=
    splitAtLastChar_append _ _ _ hyT
  have hslX : '/' ∉ Cl ++ '-' :: N ++ '-' :: A := by
    simp only [List.mem_append, List.mem_cons]
    rintro ((h | h | h) | h | h)
    · exact hslCl h
    · exact absurd h (by decide)
    · exact hslN h
    · exact absurd h (by decide)
    · exact hslA h
  have himg : splitOnChar '/' (R ++ '/' :: P ++ '/' :: (Cl ++ '-' :: N ++ '-' :: A)) =
      [R, P, Cl ++ '-' :: N ++ '-' :: A] := by
    rw [splitOnChar_append, splitOnChar_append, splitOnChar_of_not_mem _ _ hslR,
      splitOnChar_of_not_mem _ _ hslP, splitOnChar_of_not_mem _ _ hslX]
    rfl
  have hcna : splitOnChar '-' (Cl ++ '-' :: N ++ '-' :: A) = [Cl, N, A] := by
    rw [splitOnChar_append, splitOnChar_append, splitOnChar_of_not_mem _ _ hdaCl,
      splitOnChar_of_not_mem _ _ hdaN, splitOnChar_of_not_mem _ _ hdaA]
    rfl
  have htag : splitOnChar '-' (D ++ '-' :: H) = splitOnChar '-' D ++ [H] := by
    rw [splitOnChar_append, splitOnChar_of_not_mem _ _ hdaH]
  have htagLen : ¬((splitOnChar '-' D ++ [H]).length < 2) := by
    have h0 : (splitOnChar '-' D).length ≠ 0 := by
      simpa using splitOnChar_ne_nil '-' D
    simp only [List.length_append, List.length_cons, List.length_nil]
    omega
  have hbig : (R ++ '/' :: P ++ '/' :: (Cl ++ '-' :: N ++ '-' :: A)) ++
      ':' :: (D ++ '-' :: H) ≠ [] := by simp
  rw [hgen]
  simp only [parse_tag, if_neg hbig, hsplit]
  have himgne : ¬(R ++ '/' :: P ++ '/' :: (Cl ++ '-' :: N ++ '-' :: A) = [] ∨
      D ++ '-' :: H = []) := by
    rintro (h | h) <;> simp at h
  rw [if_neg himgne]
  simp only [himg]
  rw [if_neg (show ¬(([R, P, Cl ++ '-' :: N ++ '-' :: A] : List Str).length < 3)
    by simp)]
  rw [if_pos (show ([R, P, Cl ++ '-' :: N ++ '-' :: A] : List Str).length = 3
    by simp)]
  have hgl : ([R, P, Cl ++ '-' :: N ++ '-' :: A] : List Str).getLastD [] =
      Cl ++ '-' :: N ++ '-' :: A := rfl
  have hgp : (([R, P, Cl ++ '-' :: N ++ '-' :: A] : List Str).dropLast).getLastD [] =
      P := rfl
  have hhd : ([R, P, Cl ++ '-' :: N ++ '-' :: A] : List Str).headD [] = R := rfl
  rw [hgl, hgp, hhd]
  simp only [hcna]
  rw [if_neg (show ¬(([Cl, N, A] : List Str).length < 3) by simp)]
  have hga : ([Cl, N, A] : List Str).getLastD [] = A := rfl
  have hgn : (([Cl, N, A] : List Str).dropLast).getLastD [] = N := rfl
  have hgc : joinChar '-' (([Cl, N, A] : List Str).dropLast.dropLast) = Cl := rfl
  rw [hga, hgn, hgc]
  simp only [htag]
  rw [if_neg htagLen]
  have hlast : (splitOnChar '-' D ++ [H]).getLastD [] = H := by simp
  have hdrop : (splitOnChar '-' D ++ [H]).dropLast = splitOnChar '-' D :=
    List.dropLast_concat ..
  rw [hlast, hdrop, joinChar_splitOnChar]
  simp only [mkImageTagComponents, validateComponent, if_neg hneR, if_neg hneP,
    if_neg hneCl, if_neg hneN, if_neg hneA, if_neg hneD, if_neg hneH,
    hstR, hstP, hstCl, hstN, hstA, hstD, hstH]
  rfl

/-- Witness for C1: the round-trip theorem applied to the concrete
components `reg.io/repo/crc-default-app:abcdef123456-5f9c8d`. -/
theorem claim_C1_roundtrip_witness :
    parse_tag (generate_tag ⟨"reg.io".data, "repo".data, "crc".data,
        "default".data, "app".data, "abcdef123456".data, "5f9c8d".data⟩) =
      .ok ⟨"reg.io".data, "repo".data, "crc".data, "default".data,
        "app".data, "abcdef123456".data, "5f9c8d".data⟩ :=
  claim_C1_roundtrip _ (by decide) (by decide) (by decide) (by decide)
    (by decide) (by decide)

/-- Counterexample for C1 as stated.  Three component records whose
fields are non-empty, stripped, free of `/` and `:`, and (for cluster,
namespace, app) free of *internal* `-`, yet `parse_tag ∘ generate_tag`
does not return them: an upper-case cluster (`generate_tag` lower-cases,
`parse_tag` cannot restore the case), a pod-template hash containing `-`
(the hash is recovered as the part after the *last* `-` of the tag part),
and a namespace with a trailing `-` (the recovered namespace becomes
empty and the validator rejects it). -/
theorem claim_C1_counterexample :
    (parse_tag (generate_tag ⟨"r".data, "p".data, "C".data, "n".data,
        "a".data, "d".data, "h".data⟩) ≠
      .ok ⟨"r".data, "p".data, "C".data, "n".data, "a".data, "d".data,
        "h".data⟩) ∧
    (parse_tag (generate_tag ⟨"r".data, "p".data, "c".data, "n".data,
        "a".data, "d".data, "h-h".data⟩) ≠
      .ok ⟨"r".data, "p".data, "c".data, "n".data, "a".data, "d".data,
        "h-h".data⟩) ∧
    (parse_tag (generate_tag ⟨"r".data, "p".data, "c".data, "n-".data,
        "a".data, "d".data, "h".data⟩) ≠
      .ok ⟨"r".data, "p".data, "c".data, "n-".data, "a".data, "d".data,
        "h".data⟩) := by
  decide

/-- C7: `generate_tag` on registry `Reg`, repo `Repo`, cluster `C`,
namespace `N`, app `A`, digest `d1`, hash `h1` returns exactly
`Reg/Repo/c-n-a:d1-h1` — the cluster-namespace-app segment is
lower-cased, registry and repo keep their case. -/
theorem claim_C7_generate_example :
    generate_tag ⟨"Reg".data, "Repo".data, "C".data, "N".data, "A".data,
      "d1".data, "h1".data⟩ = "Reg/Repo/c-n-a:d1-h1".data := by
  decide

/-- The spec's parse example: a registry carrying a port is recovered by
the last-colon split. -/
theorem parse_tag_port_example :
    parse_tag "reg.io:5000/repo/crc-default-app:abcdef123456-5f9c8d".data =
      .ok ⟨"reg.io:5000".data, "repo".data, "crc".data, "default".data,
        "app".data, "abcdef123456".data, "5f9c8d".data⟩ := by
  decide

/-! ## Oracle/codec agreement (claim C2) -/

/-- Counterexample for C2 as stated: for cluster `C`, namespace `n`,
app `a` the oracle probes repository path `C-n-a`, while the codec's
generated tag uses the lower-cased segment `c-n-a` — the segment the
oracle checks is *not* lower-cased. -/
theorem claim_C2_counterexample :
    multiRegistryImagePath ("C".data) ("n".data) ("a".data) ≠
      codecRepoPath ⟨"Reg".data, "repo".data, "C".data, "n".data, "a".data,
        "d".data, "h".data⟩ := by
  decide

/-- C2 (amended): the tag string the oracle probes always equals the
codec's tag part; the repository path it probes is the raw
`cluster-namespace-app` segment, which equals the codec's segment exactly
when that segment is already lower-case. -/
theorem claim_C2_oracle_codec_agreement (r p cl ns app d h : Str)
    (hlow : pyLower (cl ++ '-' :: ns ++ '-' :: app) =
      cl ++ '-' :: ns ++ '-' :: app) :
    multiRegistryTag d h = codecTagPart ⟨r, p, cl, ns, app, d, h⟩ ∧
    multiRegistryImagePath cl ns app = cl ++ '-' :: ns ++ '-' :: app ∧
    multiRegistryImagePath cl ns app =
      codecRepoPath ⟨r, p, cl, ns, app, d, h⟩ := by
  refine ⟨rfl, rfl, ?_⟩
  simp only [multiRegistryImagePath, codecRepoPath]
  exact hlow.symm

/-- Witness for C2's amended agreement at an all-lower-case tuple. -/
theorem claim_C2_oracle_codec_agreement_witness :
    multiRegistryTag ("d1".data) ("h1".data) =
      codecTagPart ⟨"Reg".data, "Repo".data, "crc".data, "default".data,
        "app".data, "d1".data, "h1".data⟩ ∧
    multiRegistryImagePath ("crc".data) ("default".data) ("app".data) =
      "crc".data ++ '-' :: "default".data ++ '-' :: "app".data ∧
    multiRegistryImagePath ("crc".data) ("default".data) ("app".data) =
      codecRepoPath ⟨"Reg".data, "Repo".data, "crc".data, "default".data,
        "app".data, "d1".data, "h1".data⟩ :=
  claim_C2_oracle_codec_agreement ("Reg".data) ("Repo".data) ("crc".data)
    ("default".data) ("app".data) ("d1".data) ("h1".data) (by decide)

/-! ## Oracle fail-closed (claim C5) -/

/-- C5: if every URL probe of the docker-registry manifest check comes
back with an HTTP code other than `200` (e.g. `500`) or raises a
transport error, the check returns `False` — and the
multi-registry wrapper answers `False` whenever its dispatched check
raises.  Both are total functions: no exception escapes. -/
theorem claim_C5_oracle_fail_closed (outcomes : List RunOutcome)
    (h : ∀ o ∈ outcomes, isHttp200 o = false) :
    check_image_exists_docker_registry outcomes = false ∧
    (∀ e : Unit, check_image_exists_multi_registry (.error e) = false) := by
  constructor
  · induction outcomes with
    | nil => rfl
    | cons o rest ih =>
      have hrest : ∀ o ∈ rest, isHttp200 o = false :=
        fun o ho => h o (List.mem_cons_of_mem _ ho)
      cases o with
      | exc =>
        simpa [check_image_exists_docker_registry, checkRegistryLoop] using ih hrest
      | ok s =>
        have hs : ¬(httpCodeOf s = "200".data) := by
          have := h (.ok s) (List.mem_cons_self _ _)
          simpa [isHttp200] using this
        simpa [check_image_exists_docker_registry, checkRegistryLoop, hs]
          using ih hrest
  · intro e
    rfl

/-- Witness for C5: an HTTP 500 on the https URL and a connection refusal
on the http URL yield `False`. -/
theorem claim_C5_oracle_fail_closed_witness :
    check_image_exists_docker_registry [.ok ("500".data), .exc] = false ∧
    (∀ e : Unit, check_image_exists_multi_registry (.error e) = false) :=
  claim_C5_oracle_fail_closed [.ok ("500".data), .exc] (by decide)

/-! ## Admission decision shape (claim C4) -/

theorem generate_tag_ne_nil (c : ImageTagComponents) : generate_tag c ≠ [] := by
  simp [generate_tag]

theorem generate_image_tag_ok_ne_nil (r p cl ns a d h t : Str)
    (hg : generate_image_tag r p cl ns a d h = .ok t) : t ≠ [] := by
  unfold generate_image_tag at hg
  cases hmk : mkImageTagComponents r p cl ns a d h with
  | ok c =>
    rw [hmk] at hg
    simp only [Except.map] at hg
    cases hg
    exact generate_tag_ne_nil c
  | error e =>
    rw [hmk] at hg
    simp only [Except.map] at hg
    exact Except.noConfusion hg

theorem receive_pod_webhook_tag_ne_nil (cluster_name : Str) (pod : Pod)
    (snap_registry snap_repo : Str) (sk : Str → Str) :
    receive_pod_webhook_tag cluster_name pod snap_registry snap_repo sk ≠ [] := by
  simp only [receive_pod_webhook_tag]
  split
  · rename_i t heq
    exact generate_image_tag_ok_ne_nil _ _ _ _ _ _ _ t heq
  · decide

/-- C4: admission decision shape.  (i) When the SnapApi backend answers
HTTP 200 with `exist == "True"` and a non-empty generated tag, the
admission response is `allowed` and carries exactly one image-replace
patch per container of the pod spec plus exactly one mutated-label
patch.  (ii) On a non-200 status, an `exist` other than `"True"`, or an
exception during the backend call, the response is `allowed` with no
patch at all.  (iii) The backend (`receive_pod_webhook`) reports
`exist == True` exactly when the existence oracle answers true for the
tuple it queried, and then always supplies a non-empty generated tag —
so case (i) is precisely "the oracle reports the cached image exists".
`mutate_pods` is total: internal failures are caught and fall into
case (ii). -/
theorem claim_C4_admission_decision_shape (cs : List Container)
    (call : SnapApiCall) :
    (∀ status exist tag, call = .resp status exist tag → status = 200 →
      exist = some ("True".data) → ∀ t, tag = some t → t ≠ [] →
      mutate_pods cs call =
        ⟨true, some ((List.range cs.length).map (fun i => imageReplacePatch i t) ++
          [mutatedLabelPatch])⟩) ∧
    ((call = .exc ∨ ∀ status exist tag, call = .resp status exist tag →
        status ≠ 200 ∨ exist ≠ some ("True".data)) →
      mutate_pods cs call = ⟨true, none⟩) ∧
    (∀ (cluster_name : Str) (pod : Pod) (snap_registry snap_repo : Str)
        (sk : Str → Str)
        (oracle : Str × Str × Str × Str × Str × Str × Str → Bool),
      oracle (webhookQuery cluster_name pod snap_registry snap_repo sk) = true →
      receive_pod_webhook cluster_name pod snap_registry snap_repo sk oracle =
        ⟨true, some (receive_pod_webhook_tag cluster_name pod snap_registry
          snap_repo sk)⟩ ∧
      receive_pod_webhook_tag cluster_name pod snap_registry snap_repo sk ≠ []) := by
  refine ⟨?_, ?_, ?_⟩
  · rintro status exist tag rfl rfl rfl t rfl htne
    have htr : truthyOpt (some t) = true := by
      simp only [truthyOpt, Option.getD_some]
      cases t with
      | nil => exact absurd rfl htne
      | cons a l => rfl
    simp only [mutate_pods, if_pos rfl, htr, and_true, if_pos rfl, if_true,
      Option.getD_some]
    have hne : (List.range cs.length).map (fun i => imageReplacePatch i t) ++
        [mutatedLabelPatch] ≠ [] := by simp
    rw [if_pos hne]
  · rintro (rfl | h)
    · rfl
    · cases call with
      | exc => rfl
      | resp status exist tag =>
        rcases h status exist tag rfl with h200 | hex
        · simp only [mutate_pods, if_neg h200]
          rfl
        · by_cases h200 : status = 200
          · simp only [mutate_pods, if_pos h200, if_neg hex]
            rfl
          · simp only [mutate_pods, if_neg h200]
            rfl
  · intro cluster_name pod snap_registry snap_repo sk oracle hor
    refine ⟨?_, receive_pod_webhook_tag_ne_nil _ _ _ _ _⟩
    simp only [receive_pod_webhook, hor, if_true]

/-- Witness for C4: a two-container pod patched on `exist == "True"`,
and an exception answered with `allowed` and no patch. -/
theorem claim_C4_admission_decision_shape_witness :
    mutate_pods [⟨some ("c1".data), some ("i1".data)⟩,
        ⟨some ("c2".data), some ("i2".data)⟩]
      (.resp 200 (some ("True".data)) (some ("t".data))) =
      ⟨true, some [imageReplacePatch 0 ("t".data), imageReplacePatch 1 ("t".data),
        mutatedLabelPatch]⟩ ∧
    mutate_pods [⟨some ("c1".data), some ("i1".data)⟩] .exc = ⟨true, none⟩ := by
  constructor
  · have h := (claim_C4_admission_decision_shape
      [⟨some ("c1".data), some ("i1".data)⟩, ⟨some ("c2".data), some ("i2".data)⟩]
      (.resp 200 (some ("True".data)) (some ("t".data)))).1
      200 (some ("True".data)) (some ("t".data)) rfl rfl rfl ("t".data) rfl
      (by decide)
    rw [h]
    decide
  · exact (claim_C4_admission_decision_shape _ .exc).2.1 (Or.inl rfl)

/-! ## Uniform multi-container patch and digest provenance (claim C9) -/

/-- Counterexample for C9 as stated: two pods identical except for the
`imageID` carried by the *second* container's status (the first container
has no status entry of its own) produce different generated tags — the
digest fell back to `containerStatuses[0]`, which belongs to another
container, so another container's image data influenced the patched
value. -/
theorem claim_C9_counterexample :
    (twoContainerPod ("docker://sha256:bbbbbbbbbbbbbbbb".data)).spec =
      (twoContainerPod ("docker://sha256:cccccccccccccccc".data)).spec ∧
    (twoContainerPod ("docker://sha256:bbbbbbbbbbbbbbbb".data)).metadata =
      (twoContainerPod ("docker://sha256:cccccccccccccccc".data)).metadata ∧
    receive_pod_webhook_tag ("crc".data)
        (twoContainerPod ("docker://sha256:bbbbbbbbbbbbbbbb".data))
        ("reg.io".data) ("snap".data) (fun _ => "unknown".data) ≠
      receive_pod_webhook_tag ("crc".data)
        (twoContainerPod ("docker://sha256:cccccccccccccccc".data))
        ("reg.io".data) ("snap".data) (fun _ => "unknown".data) := by
  refine ⟨rfl, rfl, ?_⟩
  decide

/-- C9 (amended): (i) whenever the admission webhook patches at all, the
patch list is exactly one image-replace per container, all carrying one
and the same tag value, plus the single mutated label; (ii) the digest
component is a function of the pod's container list and of the *chosen*
container status — the status matching the first container's name when
present, otherwise the first listed status, which may belong to a
different container — so only through that fallback can another
container's data influence the patched value. -/
theorem claim_C9_uniform_patch_digest_provenance :
    (∀ (cs : List Container) (call : SnapApiCall) (ps : List JsonPatch),
      (mutate_pods cs call).patch = some ps →
      ∃ t, ps = (List.range cs.length).map (fun i => imageReplacePatch i t) ++
        [mutatedLabelPatch]) ∧
    (∀ (p q : Pod) (sk : Str → Str),
      p.spec.containers = q.spec.containers →
      chosenStatus p (firstContainerName p) = chosenStatus q (firstContainerName q) →
      extract_digest p sk = extract_digest q sk) := by
  constructor
  · intro cs call ps hps
    simp only [mutate_pods] at hps
    by_cases hc : (match call with
      | .exc => ((false : Bool), (none : Option Str))
      | .resp status exist tag =>
        if status = 200 then
          if exist = some ("True".data) then (true, tag) else (false, none)
        else (false, none)).1 = true ∧ truthyOpt (match call with
      | .exc => ((false : Bool), (none : Option Str))
      | .resp status exist tag =>
        if status = 200 then
          if exist = some ("True".data) then (true, tag) else (false, none)
        else (false, none)).2 = true
    · rw [if_pos hc, if_pos hc] at hps
      rw [if_pos (by simp)] at hps
      cases hps
      exact ⟨_, rfl⟩
    · rw [if_neg hc, if_neg hc] at hps
      simp at hps
  · intro p q sk hcont hch
    have hn : firstContainerName p = firstContainerName q := by
      unfold firstContainerName
      rw [hcont]
    have hi : firstContainerImage p = firstContainerImage q := by
      unfold firstContainerImage
      rw [hcont]
    have hsp : specPinnedDigest p (firstContainerName p) =
        specPinnedDigest q (firstContainerName q) := by
      unfold specPinnedDigest
      rw [hcont, hn]
    have hobj : extract_digest_from_pod_obj p (firstContainerName p) =
        extract_digest_from_pod_obj q (firstContainerName q) := by
      unfold extract_digest_from_pod_obj
      rw [hch, hsp]
    simp only [extract_digest]
    rw [hobj, hi]

/-- Witness for C9's amended statement: a concrete patched response is of
the uniform shape, and two pods with equal containers and equal chosen
status get equal digests. -/
theorem claim_C9_uniform_patch_digest_provenance_witness :
    (∃ t, [imageReplacePatch 0 ("t".data), imageReplacePatch 1 ("t".data),
        mutatedLabelPatch] =
      (List.range ([⟨some ("c1".data), some ("i1".data)⟩,
        ⟨some ("c2".data), some ("i2".data)⟩] : List Container).length).map
          (fun i => imageReplacePatch i t) ++ [mutatedLabelPatch]) ∧
    extract_digest (twoContainerPod ("docker://sha256:bbbbbbbbbbbbbbbb".data))
        (fun _ => "unknown".data) =
      extract_digest (twoContainerPod ("docker://sha256:bbbbbbbbbbbbbbbb".data))
        (fun _ => "unknown".data) := by
  constructor
  · exact (claim_C9_uniform_patch_digest_provenance.1
      [⟨some ("c1".data), some ("i1".data)⟩, ⟨some ("c2".data), some ("i2".data)⟩]
      (.resp 200 (some ("True".data)) (some ("t".data)))
      [imageReplacePatch 0 ("t".data), imageReplacePatch 1 ("t".data),
        mutatedLabelPatch] (by decide))
  · exact claim_C9_uniform_patch_digest_provenance.2
      (twoContainerPod ("docker://sha256:bbbbbbbbbbbbbbbb".data))
      (twoContainerPod ("docker://sha256:bbbbbbbbbbbbbbbb".data))
      (fun _ => "unknown".data) rfl rfl

/-! ## Trigger dedup (claim C3) and terminating pods (claim C8) -/

/-- C3, evaluated at the failing input.  A pod that satisfies the
readiness guard is fed to the integrated SnapApi handler
(`SnapWatcherOperator.handle_pod_event`) twice: the checkpoint-and-push
pipeline is invoked twice, not once — that handler keeps no dedup set.
The sibling `SnapWatch/operator.py` handler does dedup by UID: its
post-dedup body runs exactly once for the same two events (though in that
file the pipeline request itself is commented out). -/
theorem claim_C3_trigger_dedup_missing :
    podEventGuard (some ("MODIFIED".data))
      (twoContainerPod ("docker://sha256:bbbbbbbbbbbbbbbb".data)) = true ∧
    (snapApiPipelineInvocations true
      [(some ("MODIFIED".data), twoContainerPod ("docker://sha256:bbbbbbbbbbbbbbbb".data)),
       (some ("MODIFIED".data), twoContainerPod ("docker://sha256:bbbbbbbbbbbbbbbb".data))]).length
      = 2 ∧
    snapwatchTriggerCount []
      [(some ("MODIFIED".data), twoContainerPod ("docker://sha256:bbbbbbbbbbbbbbbb".data)),
       (some ("MODIFIED".data), twoContainerPod ("docker://sha256:bbbbbbbbbbbbbbbb".data))]
      = 1 := by
  decide

/-- C8: an event whose resolved type is `DELETED`, or whose pod carries a
(non-empty) deletion timestamp, never triggers: the SnapApi handler
returns without invoking the pipeline and the SnapWatch handler returns
without reaching its post-dedup body or changing the dedup set — for
*every* pod body, in particular for pods that are otherwise Running,
Ready and started. -/
theorem claim_C8_terminating_never_triggers (ready : Bool)
    (evtType : Option Str) (body : Pod) (seen : List (Option Str))
    (h : resolvedEventType evtType = "DELETED".data ∨
      ∃ ts, body.metadata.deletionTimestamp = some ts ∧ ts ≠ []) :
    handle_pod_event ready evtType body = none ∧
    snapwatch_step seen evtType body = (seen, false) := by
  have hcond : resolvedEventType evtType = "DELETED".data ∨
      truthyOpt body.metadata.deletionTimestamp = true := by
    rcases h with h | ⟨ts, hts, htsne⟩
    · exact Or.inl h
    · right
      rw [hts]
      cases ts with
      | nil => exact absurd rfl htsne
      | cons a l => rfl
  have hg : podEventGuard evtType body = false := by
    simp only [podEventGuard]
    rw [if_pos hcond]
  constructor
  · cases ready with
    | false => rfl
    | true => simp [handle_pod_event, hg]
  · simp [snapwatch_step, hg]

/-- Witness for C8: the otherwise-Ready fixture pod with a deletion
timestamp set is not acted on by either handler. -/
theorem claim_C8_terminating_never_triggers_witness :
    handle_pod_event true (some ("MODIFIED".data))
      { twoContainerPod ("docker://sha256:bbbbbbbbbbbbbbbb".data) with
        metadata := { (twoContainerPod
            ("docker://sha256:bbbbbbbbbbbbbbbb".data)).metadata with
          deletionTimestamp := some ("2025-01-01T00:00:00Z".data) } } = none ∧
    snapwatch_step [] (some ("MODIFIED".data))
      { twoContainerPod ("docker://sha256:bbbbbbbbbbbbbbbb".data) with
        metadata := { (twoContainerPod
            ("docker://sha256:bbbbbbbbbbbbbbbb".data)).metadata with
          deletionTimestamp := some ("2025-01-01T00:00:00Z".data) } } =
      ([], false) :=
  claim_C8_terminating_never_triggers true (some ("MODIFIED".data)) _ []
    (Or.inr ⟨"2025-01-01T00:00:00Z".data, rfl, by decide⟩)

/-! ## Pipeline failure containment (claim C6) and first-container
checkpoint (claim C10) -/

theorem checkpointCallNames_append (xs ys : List PipelineAction) :
    checkpointCallNames (xs ++ ys) =
      checkpointCallNames xs ++ checkpointCallNames ys := by
  simp [checkpointCallNames]

theorem annotateNames_append (xs ys : List PipelineAction) :
    annotateNames (xs ++ ys) = annotateNames xs ++ annotateNames ys := by
  simp [annotateNames]

/-- In every run of the buildah tail, no kubelet checkpoint call is made
and every image annotation carries the extracted container name. -/
theorem buildahPhase_names (facts : PodFacts) (cr : CheckpointResponse)
    (tag : Str) (env : PipelineEnv) :
    checkpointCallNames (buildahPhase facts cr tag env).1 = [] ∧
    (∀ n ∈ annotateNames (buildahPhase facts cr tag env).1,
      n = facts.cname) := by
  unfold buildahPhase
  rcases hf : env.buildahFrom with e1 | c1 <;>
    rcases ha : env.buildahAdd with e2 | u2 <;>
    rcases hcf : env.buildahConfig with e3 | u3 <;>
    rcases hcm : env.buildahCommit with e4 | u4 <;>
    rcases hp : env.buildahPush with e5 | u5 <;>
    by_cases hl : env.snap_registry_user ≠ [] ∧ env.snap_registry_pass ≠ [] <;>
    constructor <;>
    simp [hl, checkpointCallNames, annotateNames]

/-- In every run of the build/push phase, no kubelet checkpoint call is
made and every image annotation carries the extracted container name. -/
theorem pipelineBuildPush_names (facts : PodFacts) (path : Str)
    (env : PipelineEnv) :
    checkpointCallNames (pipelineBuildPush facts path env).1 = [] ∧
    (∀ n ∈ annotateNames (pipelineBuildPush facts path env).1,
      n = facts.cname) := by
  unfold pipelineBuildPush
  by_cases ho : facts.orig0 = []
  · simp only [ho, if_pos, if_true]
    rcases hs : env.skopeo (if containsSub ("://".data) facts.container_image
        then facts.container_image
        else "docker://".data ++ facts.container_image) with e | d
    · simp [hs, Except.map, checkpointCallNames, annotateNames]
    · simp only [hs, Except.map]
      have hb := buildahPhase_names facts
        ⟨true, "All containers checkpointed successfully for pod: ".data ++
          facts.podN, path, facts.podN, facts.cname⟩
        (env.snap_registry ++ '/' :: env.snap_repo ++
          '/' :: pyLower env.snap_cluster ++ '-' :: facts.nsN ++
          '-' :: facts.appN ++ ':' :: short_digest_from_full d ++
          '-' :: facts.hashN) env
      constructor
      · rw [checkpointCallNames_append, hb.1]
        simp [checkpointCallNames]
      · intro n hn
        rw [annotateNames_append] at hn
        rcases List.mem_append.mp hn with hn | hn
        · simp [annotateNames] at hn
        · exact hb.2 n hn
  · simp only [ho, if_neg, if_false]
    have hb := buildahPhase_names facts
      ⟨true, "All containers checkpointed successfully for pod: ".data ++
        facts.podN, path, facts.podN, facts.cname⟩
      (env.snap_registry ++ '/' :: env.snap_repo ++
        '/' :: pyLower env.snap_cluster ++ '-' :: facts.nsN ++
        '-' :: facts.appN ++ ':' :: facts.orig0 ++
        '-' :: facts.hashN) env
    constructor
    · rw [show (([] : List PipelineAction) ++
        (buildahPhase _ _ _ env).1) = (buildahPhase _ _ _ env).1 from
          List.nil_append _]
      exact hb.1
    · intro n hn
      rw [List.nil_append] at hn
      exact hb.2 n hn

/-- In every run of the pipeline from token resolution on, the kubelet
checkpoint calls name at most — and, once the token resolves, exactly —
the extracted container, and every annotation names it too. -/
theorem pipelineFromToken_names (facts : PodFacts) (env : PipelineEnv) :
    (checkpointCallNames (pipelineFromToken facts env).1 = [] ∨
      checkpointCallNames (pipelineFromToken facts env).1 = [facts.cname]) ∧
    (∀ n ∈ annotateNames (pipelineFromToken facts env).1, n = facts.cname) ∧
    ((∃ tk, env.token = .ok tk) →
      checkpointCallNames (pipelineFromToken facts env).1 = [facts.cname]) := by
  unfold pipelineFromToken
  cases ht : env.token with
  | error e =>
    refine ⟨Or.inl (by simp [checkpointCallNames]), ?_, ?_⟩
    · intro n hn
      simp [annotateNames] at hn
    · rintro ⟨tk, htk⟩
      exact Except.noConfusion htk
  | ok tk =>
    have hbase : checkpointCallNames
        ([PipelineAction.svcLookup, PipelineAction.readToken] ++
          [PipelineAction.checkpointCall facts.nsN facts.podN facts.cname]) =
        [facts.cname] := by
      simp [checkpointCallNames]
    rcases hck : env.checkpoint with e | r
    · exact ⟨Or.inr hbase, by intro n hn; simp [annotateNames] at hn,
        fun _ => hbase⟩
    · cases r with
      | notJson s1 s2 =>
        exact ⟨Or.inr hbase, by intro n hn; simp [annotateNames] at hn,
          fun _ => hbase⟩
      | json stdout items =>
        cases items with
        | none =>
          exact ⟨Or.inr hbase, by intro n hn; simp [annotateNames] at hn,
            fun _ => hbase⟩
        | some l =>
          cases l with
          | nil =>
            exact ⟨Or.inr hbase, by intro n hn; simp [annotateNames] at hn,
              fun _ => hbase⟩
          | cons p ps =>
            rcases hu : env.upload with e | rcpair
            · refine ⟨Or.inr ?_, ?_, fun _ => ?_⟩ <;>
                simp [checkpointCallNames, annotateNames]
            · obtain ⟨rc, stderrU⟩ := rcpair
              dsimp only [Option.getD]
              by_cases hrc : rc ≠ 0
              · rw [if_pos hrc]
                refine ⟨Or.inr ?_, ?_, fun _ => ?_⟩ <;>
                  simp [checkpointCallNames, annotateNames]
              · rw [if_neg hrc]
                have hb := pipelineBuildPush_names facts p env
                refine ⟨Or.inr ?_, ?_, fun _ => ?_⟩
                · rw [checkpointCallNames_append, hb.1]
                  simp [checkpointCallNames]
                · intro n hn
                  rw [annotateNames_append] at hn
                  rcases List.mem_append.mp hn with hn | hn
                  · simp [annotateNames] at hn
                  · exact hb.2 n hn
                · rw [checkpointCallNames_append, hb.1]
                  simp [checkpointCallNames]

/-- Relates the extracted pod facts to the pod object: the extracted
container name is `containers[0].name`. -/
theorem extractPodFacts_ok_cname (body : Pod) (c0 : Container)
    (rest : List Container) (facts : PodFacts)
    (hc : body.spec.containers = c0 :: rest)
    (hf : extractPodFacts body = .ok facts) :
    facts.cname = c0.name.getD [] := by
  unfold extractPodFacts at hf
  rw [hc] at hf
  dsimp only at hf
  by_cases hC : missingFields body c0 ≠ []
  · rw [if_pos hC] at hf
    exact Except.noConfusion hf
  · rw [if_neg hC] at hf
    cases hf
    rfl

/-- C6: whenever the kubelet checkpoint response is not JSON or its
`items` list is missing or empty, the pipeline returns a structured
failure result (`success = False`, no checkpoint/push result, no image
tag) and performs no build or push action.  The embedding is a total
function: every internal `raise` is mapped to the returned failure
dictionary, so no exception crosses the pipeline boundary. -/
theorem claim_C6_pipeline_failure_containment (body : Pod) (env : PipelineEnv)
    (h : kubeletBadItems env.checkpoint = true) :
    (checkpoint_and_push_combined_from_pod_spec body env).2.success = false ∧
    (checkpoint_and_push_combined_from_pod_spec body env).2.push_result = none ∧
    (checkpoint_and_push_combined_from_pod_spec body env).2.checkpoint_result
      = none ∧
    (checkpoint_and_push_combined_from_pod_spec body env).2.image_tag = none ∧
    (∀ a ∈ (checkpoint_and_push_combined_from_pod_spec body env).1,
      isBuildOrPushAction a = false) := by
  unfold checkpoint_and_push_combined_from_pod_spec
  cases hx : extractPodFacts body with
  | error e =>
    refine ⟨rfl, rfl, rfl, rfl, ?_⟩
    intro a ha
    simp at ha
  | ok facts =>
    show (pipelineFromToken facts env).2.success = false ∧ _
    unfold pipelineFromToken
    cases ht : env.token with
    | error e =>
      refine ⟨rfl, rfl, rfl, rfl, ?_⟩
      intro a ha
      simp only [List.mem_cons, List.not_mem_nil, or_false] at ha
      rcases ha with rfl | rfl <;> rfl
    | ok tk =>
      rcases hck : env.checkpoint with e | r
      · rw [hck] at h
        simp [kubeletBadItems] at h
      · cases r with
        | notJson s1 s2 =>
          refine ⟨rfl, rfl, rfl, rfl, ?_⟩
          intro a ha
          simp only [List.mem_append, List.mem_cons, List.not_mem_nil,
            or_false] at ha
          rcases ha with (rfl | rfl) | rfl <;> rfl
        | json stdout items =>
          cases items with
          | none =>
            refine ⟨rfl, rfl, rfl, rfl, ?_⟩
            intro a ha
            dsimp only [Option.getD] at ha
            simp only [List.mem_append, List.mem_cons, List.not_mem_nil,
              or_false] at ha
            rcases ha with (rfl | rfl) | rfl <;> rfl
          | some l =>
            cases l with
            | nil =>
              refine ⟨rfl, rfl, rfl, rfl, ?_⟩
              intro a ha
              dsimp only [Option.getD] at ha
              simp only [List.mem_append, List.mem_cons, List.not_mem_nil,
                or_false] at ha
              rcases ha with (rfl | rfl) | rfl <;> rfl
            | cons p ps =>
              rw [hck] at h
              simp [kubeletBadItems] at h

/-- Witness for C6: an `items`-less kubelet response on the fixture pod
produces a failed result with no build/push action performed. -/
theorem claim_C6_pipeline_failure_containment_witness :
    ((checkpoint_and_push_combined_from_pod_spec
        (twoContainerPod ("docker://sha256:bbbbbbbbbbbbbbbb".data))
        { svc := .ok ("10.0.0.1".data), snapApiUrlFallback := "u".data,
          token := .ok ("tk".data),
          checkpoint := .ok (.json ("{}".data) none),
          upload := .ok (0, []), skopeo := fun _ => .ok ("sha256:dddd".data),
          buildahFrom := .ok ("c1".data), buildahAdd := .ok (),
          buildahConfig := .ok (), buildahCommit := .ok (),
          buildahPush := .ok (), snap_cluster := "crc".data,
          snap_registry := "reg.io".data, snap_repo := "snap".data,
          snap_registry_user := [], snap_registry_pass := [],
          snap_kube_api_address := "kubernetes.default.svc".data }).2.success
      = false) ∧
    ((checkpoint_and_push_combined_from_pod_spec
        (twoContainerPod ("docker://sha256:bbbbbbbbbbbbbbbb".data))
        { svc := .ok ("10.0.0.1".data), snapApiUrlFallback := "u".data,
          token := .ok ("tk".data),
          checkpoint := .ok (.json ("{}".data) none),
          upload := .ok (0, []), skopeo := fun _ => .ok ("sha256:dddd".data),
          buildahFrom := .ok ("c1".data), buildahAdd := .ok (),
          buildahConfig := .ok (), buildahCommit := .ok (),
          buildahPush := .ok (), snap_cluster := "crc".data,
          snap_registry := "reg.io".data, snap_repo := "snap".data,
          snap_registry_user := [], snap_registry_pass := [],
          snap_kube_api_address := "kubernetes.default.svc".data }).2.push_result
      = none) := by
  have h := claim_C6_pipeline_failure_containment
    (twoContainerPod ("docker://sha256:bbbbbbbbbbbbbbbb".data))
    { svc := .ok ("10.0.0.1".data), snapApiUrlFallback := "u".data,
      token := .ok ("tk".data),
      checkpoint := .ok (.json ("{}".data) none),
      upload := .ok (0, []), skopeo := fun _ => .ok ("sha256:dddd".data),
      buildahFrom := .ok ("c1".data), buildahAdd := .ok (),
      buildahConfig := .ok (), buildahCommit := .ok (),
      buildahPush := .ok (), snap_cluster := "crc".data,
      snap_registry := "reg.io".data, snap_repo := "snap".data,
      snap_registry_user := [], snap_registry_pass := [],
      snap_kube_api_address := "kubernetes.default.svc".data } (by decide)
  exact ⟨h.1, h.2.1⟩

/-- C10: the pipeline checkpoints only the first container of the pod
spec.  In every run the kubelet checkpoint calls carry at most one
container name and every checkpoint call and image annotation uses
`containers[0].name`; when fact extraction succeeds (all required pod
facts present) and the token resolves, exactly one checkpoint call is
made, for `containers[0].name` — regardless of how many containers the
pod runs. -/
theorem claim_C10_first_container_checkpoint (body : Pod) (env : PipelineEnv)
    (c0 : Container) (rest : List Container)
    (hc : body.spec.containers = c0 :: rest) :
    (checkpointCallNames (checkpoint_and_push_combined_from_pod_spec body env).1
        = [] ∨
      checkpointCallNames (checkpoint_and_push_combined_from_pod_spec body env).1
        = [c0.name.getD []]) ∧
    (∀ n ∈ annotateNames (checkpoint_and_push_combined_from_pod_spec body env).1,
      n = c0.name.getD []) ∧
    (((∃ facts, extractPodFacts body = .ok facts) ∧
        (∃ tk, env.token = .ok tk)) →
      checkpointCallNames
        (checkpoint_and_push_combined_from_pod_spec body env).1
        = [c0.name.getD []]) := by
  unfold checkpoint_and_push_combined_from_pod_spec
  cases hx : extractPodFacts body with
  | error e =>
    refine ⟨Or.inl (by simp [checkpointCallNames]), ?_, ?_⟩
    · intro n hn
      simp [annotateNames] at hn
    · rintro ⟨⟨facts, hf⟩, -⟩
      exact Except.noConfusion hf
  | ok facts =>
    have hcn : facts.cname = c0.name.getD [] :=
      extractPodFacts_ok_cname body c0 rest facts hc hx
    have hn := pipelineFromToken_names facts env
    refine ⟨?_, ?_, ?_⟩
    · rcases hn.1 with h1 | h1
      · exact Or.inl h1
      · exact Or.inr (by rw [h1, hcn])
    · intro n hmem
      rw [← hcn]
      exact hn.2.1 n hmem
    · rintro ⟨-, htk⟩
      rw [← hcn]
      exact hn.2.2 htk

/-- Witness for C10: on the two-container fixture pod (with complete pod
facts), exactly one checkpoint call is made and it names the first
container `a`. -/
theorem claim_C10_first_container_checkpoint_witness :
    checkpointCallNames
      (checkpoint_and_push_combined_from_pod_spec
        (twoContainerPod ("docker://sha256:bbbbbbbbbbbbbbbb".data))
        { svc := .ok ("10.0.0.1".data), snapApiUrlFallback := "u".data,
          token := .ok ("tk".data),
          checkpoint := .ok (.json ("resp".data)
            (some ["/var/lib/kubelet/checkpoints/ckpt.tar".data])),
          upload := .ok (0, []), skopeo := fun _ => .ok ("sha256:dddd".data),
          buildahFrom := .ok ("c1".data), buildahAdd := .ok (),
          buildahConfig := .ok (), buildahCommit := .ok (),
          buildahPush := .ok (), snap_cluster := "crc".data,
          snap_registry := "reg.io".data, snap_repo := "snap".data,
          snap_registry_user := [], snap_registry_pass := [],
          snap_kube_api_address := "kubernetes.default.svc".data }).1
      = ["a".data] := by
  have h := (claim_C10_first_container_checkpoint
    (twoContainerPod ("docker://sha256:bbbbbbbbbbbbbbbb".data))
    { svc := .ok ("10.0.0.1".data), snapApiUrlFallback := "u".data,
      token := .ok ("tk".data),
      checkpoint := .ok (.json ("resp".data)
        (some ["/var/lib/kubelet/checkpoints/ckpt.tar".data])),
      upload := .ok (0, []), skopeo := fun _ => .ok ("sha256:dddd".data),
      buildahFrom := .ok ("c1".data), buildahAdd := .ok (),
      buildahConfig := .ok (), buildahCommit := .ok (),
      buildahPush := .ok (), snap_cluster := "crc".data,
      snap_registry := "reg.io".data, snap_repo := "snap".data,
      snap_registry_user := [], snap_registry_pass := [],
      snap_kube_api_address := "kubernetes.default.svc".data }
    ⟨some ("a".data), some ("imgA".data)⟩
    [⟨some ("b".data), some ("imgB".data)⟩] rfl).2.2
  exact h ⟨⟨_, rfl⟩, ⟨"tk".data, rfl⟩⟩

end Snap
